import Mathlib

/-!
Shallow embedding of the order and booking workflow of the photography
backend (controllers in `server/src/controllers/auth.controller.js`,
models in `server/src/models`).  Money amounts are embedded as exact
rationals; document collections are embedded as association lists keyed
by a numeric id; each controller is a pure function from its inputs and
the relevant store to the updated store plus an `Except` result mirroring
the `ErrorResponse(message, statusCode)` / success JSON split of the
source.
-/

namespace NoelPhoto

/-- Money amounts (JS numbers) embedded as exact rationals. -/
abbrev Money := Rat

/-- `ErrorResponse(message, statusCode)` from `error.middleware`. -/
structure ErrorResponse where
  message : String
  statusCode : Nat
deriving Repr, DecidableEq

/-- A `Product` document: the fields `createOrder` reads (`name`, `price`,
`stock`). -/
structure Product where
  name : String
  price : Money
  stock : Nat
deriving Repr, DecidableEq

/-- One entry of the `products` array in the `createOrder` request body:
`{ product: <id>, quantity }`. -/
structure CartItem where
  product : Nat
  quantity : Nat
deriving Repr, DecidableEq

/-- One order line as pushed onto `orderItems` in `createOrder`:
`{ product, name, price, quantity }` with name and price snapshotted. -/
structure OrderItem where
  product : Nat
  name : String
  price : Money
  quantity : Nat
deriving Repr, DecidableEq

/-- `Order.status` enum from `order.model`. -/
inductive OrderStatus
  | pending
  | processing
  | shipped
  | delivered
  | cancelled
deriving Repr, DecidableEq

/-- `Order.paymentInfo.status` enum from `order.model`. -/
inductive PaymentStatus
  | pending
  | completed
  | failed
  | refunded
deriving Repr, DecidableEq

/-- `Order.paymentInfo` subdocument (the `type` field is constant
`stripe` in every code path touched here and is omitted). -/
structure PaymentInfo where
  transactionId : String
  status : PaymentStatus
deriving Repr, DecidableEq

/-- An `Order` document with the fields written by `createOrder` and the
webhook handler. -/
structure Order where
  user : Nat
  products : List OrderItem
  shippingAddress : String
  subtotal : Money
  tax : Money
  shipping : Money
  total : Money
  status : OrderStatus
  paymentInfo : PaymentInfo
deriving Repr, DecidableEq

/-- The `Product` collection as an association list keyed by id. -/
abbrev ProductStore := List (Nat × Product)

/-- `Product.findById`: first entry with the given id, if any. -/
def findProduct : ProductStore → Nat → Option Product
  | [], _ => none
  | (k, p) :: rest, id => if k = id then some p else findProduct rest id

/-- `product.save()`: write back the document with the given id. -/
def saveProduct : ProductStore → Nat → Product → ProductStore
  | [], _, _ => []
  | (k, q) :: rest, id, p =>
      (if k = id then (id, p) else (k, q)) :: saveProduct rest id p

/-- The per-item loop body of `createOrder` (lines 751-776): fetch the
product, 404 if absent, 400 if `product.stock < item.quantity`, else push
the snapshotted line, add to `subtotal`, decrement stock and save, then
continue with the remaining items.  The updated store is returned in both
the success and the failure case, mirroring that saves already performed
are not rolled back. -/
def processItems : List CartItem → ProductStore → List OrderItem → Money →
    ProductStore × Except ErrorResponse (List OrderItem × Money)
  | [], store, orderItems, subtotal => (store, Except.ok (orderItems, subtotal))
  | item :: rest, store, orderItems, subtotal =>
    match findProduct store item.product with
    | none =>
        (store, Except.error
          ⟨"Product not found with id of " ++ toString item.product, 404⟩)
    | some product =>
        if product.stock < item.quantity then
          (store, Except.error
            ⟨product.name ++ " is out of stock. Only " ++
              toString product.stock ++ " available.", 400⟩)
        else
          processItems rest
            (saveProduct store item.product
              { product with stock := product.stock - item.quantity })
            (orderItems ++ [⟨item.product, product.name, product.price, item.quantity⟩])
            (subtotal + product.price * (item.quantity : Money))

/-- `createOrder(userId, products, shippingAddress)` over a product
store: rejects an empty item list and a missing address, runs the item
loop, then computes `tax = subtotal * 0.1`,
`shipping = subtotal > 100 ? 0 : 10`, `total = subtotal + tax + shipping`
and persists the order with status `pending`. -/
def createOrder (userId : Nat) (products : List CartItem)
    (shippingAddress : Option String) (store : ProductStore) :
    ProductStore × Except ErrorResponse Order :=
  if products.isEmpty then
    (store, Except.error ⟨"Please add at least one product to your order", 400⟩)
  else
    match shippingAddress with
    | none => (store, Except.error ⟨"Please provide a shipping address", 400⟩)
    | some addr =>
      match processItems products store [] 0 with
      | (store1, Except.error e) => (store1, Except.error e)
      | (store1, Except.ok (orderItems, subtotal)) =>
        let tax : Money := subtotal * (0.1 : Money)
        let shipping : Money := if subtotal > 100 then 0 else 10
        let total : Money := subtotal + tax + shipping
        (store1, Except.ok
          { user := userId
            products := orderItems
            shippingAddress := addr
            subtotal := subtotal
            tax := tax
            shipping := shipping
            total := total
            status := OrderStatus.pending
            paymentInfo := ⟨"", PaymentStatus.pending⟩ })

/-- The amount `price * quantity` contributed by one order line. -/
def lineTotal (l : OrderItem) : Money :=
  l.price * (l.quantity : Money)

/-- Sum of `price * quantity` over a list of order lines. -/
def sumLines (ls : List OrderItem) : Money :=
  (ls.map lineTotal).sum

/-- The pair of fields of a product that `createOrder` snapshots. -/
def nameAndPrice (p : Product) : String × Money :=
  (p.name, p.price)

/-- Decidable version of the per-item failure condition of the
`createOrder` loop: the product is absent, or its stock is below the
requested quantity. -/
def itemFails (store : ProductStore) (item : CartItem) : Bool :=
  match findProduct store item.product with
  | none => true
  | some p => p.stock < item.quantity

/-! ### Concurrency model for the stock decrement (claim about oversell)

`createOrder` performs, per item, a plain read (`Product.findById`), an
in-memory check (`product.stock < item.quantity`), and a plain write-back
(`product.save()`).  Against the database these are two separate atomic
steps: the read, and the unconditional write of `localCopy.stock - qty`.
The model below runs two such call sequences (quantity 1 each) against a
single shared stock value under an arbitrary interleaving. -/

/-- Program counter of one in-flight `createOrder` call for a single
item: not yet started, holding the stock value it read, or finished
(with success flag). -/
inductive AgentPC
  | start
  | gotStock (localStock : Nat)
  | done (succeeded : Bool)
deriving Repr, DecidableEq

/-- One atomic step of one call against the shared stock: the read step
loads the current stock; the second step checks the *local* copy and, if
sufficient, writes back `localStock - qty` unconditionally (this is
`product.save()` on the in-memory document). -/
def stepOne (qty : Nat) (stock : Nat) : AgentPC → AgentPC × Nat
  | AgentPC.start => (AgentPC.gotStock stock, stock)
  | AgentPC.gotStock localStock =>
      if localStock < qty then (AgentPC.done false, stock)
      else (AgentPC.done true, localStock - qty)
  | AgentPC.done r => (AgentPC.done r, stock)

/-- Shared state: the persisted stock and the two in-flight calls. -/
structure ConcState where
  stock : Nat
  a : AgentPC
  b : AgentPC
deriving Repr, DecidableEq

/-- Run one scheduler choice (`false` steps call A, `true` steps call B). -/
def schedStep (qty : Nat) (s : ConcState) (who : Bool) : ConcState :=
  if who then
    let r := stepOne qty s.stock s.b
    ⟨r.2, s.a, r.1⟩
  else
    let r := stepOne qty s.stock s.a
    ⟨r.2, r.1, s.b⟩

/-- Run a whole schedule (list of scheduler choices). -/
def runSched (qty : Nat) (init : ConcState) (sched : List Bool) : ConcState :=
  sched.foldl (schedStep qty) init

/-! ### Order store, admin status update and the Stripe webhook -/

/-- The `Order` collection as an association list keyed by id. -/
abbrev OrderStore := List (Nat × Order)

/-- `Order.findById`. -/
def findOrder : OrderStore → Nat → Option Order
  | [], _ => none
  | (k, o) :: rest, id => if k = id then some o else findOrder rest id

/-- `order.save()`. -/
def saveOrder : OrderStore → Nat → Order → OrderStore
  | [], _, _ => []
  | (k, q) :: rest, id, o =>
      (if k = id then (id, o) else (k, q)) :: saveOrder rest id o

/-- `updateOrderStatus` (admin route): find the order, 404 if absent,
otherwise set `order.status` to the requested value and save — no check
against the current status. -/
def updateOrderStatus (orders : OrderStore) (id : Nat) (status : OrderStatus) :
    OrderStore × Except ErrorResponse Order :=
  match findOrder orders id with
  | none => (orders, Except.error ⟨"Order not found with id of " ++ toString id, 404⟩)
  | some order =>
      let updated := { order with status := status }
      (saveOrder orders id updated, Except.ok updated)

/-- The outcome of `stripe.webhooks.constructEvent`: either a
verification failure (the thrown error's message) or a verified event.
A verified `payment_intent.succeeded` event carries
`paymentIntent.metadata.orderId`; every other event type is abstracted
by its type string. -/
inductive StripeEvent
  | paymentIntentSucceeded (orderId : Nat)
  | other (eventType : String)
deriving Repr, DecidableEq

/-- An HTTP response of the webhook endpoint (status code and body). -/
structure WebhookResponse where
  status : Nat
  body : String
deriving Repr, DecidableEq

/-- `handleStripeWebhook`: a signature-verification failure is answered
with 400 and no state change; a verified `payment_intent.succeeded`
event updates the order named by `metadata.orderId` (if it exists) to
`paymentInfo.status = completed`, `status = processing`; everything else
is acknowledged with 200 and leaves the store unchanged. -/
def handleStripeWebhook (constructResult : Except String StripeEvent)
    (orders : OrderStore) : OrderStore × WebhookResponse :=
  match constructResult with
  | Except.error msg => (orders, ⟨400, "Webhook Error: " ++ msg⟩)
  | Except.ok event =>
      match event with
      | StripeEvent.paymentIntentSucceeded orderId =>
          match findOrder orders orderId with
          | some order =>
              (saveOrder orders orderId
                { order with
                    paymentInfo := { order.paymentInfo with status := PaymentStatus.completed }
                    status := OrderStatus.processing },
               ⟨200, "received"⟩)
          | none => (orders, ⟨200, "received"⟩)
      | StripeEvent.other _ => (orders, ⟨200, "received"⟩)

/-! ### Booking workflow -/

/-- `User.role` values relevant to the controllers. -/
inductive Role
  | user
  | admin
deriving Repr, DecidableEq

/-- The authenticated requester (`req.user`). -/
structure Requester where
  id : Nat
  role : Role
deriving Repr, DecidableEq

/-- `Booking.status` enum from `booking.model`. -/
inductive BookingStatus
  | pending
  | confirmed
  | completed
  | cancelled
deriving Repr, DecidableEq

/-- The string mongoose stores for a booking status (used in the error
message of `updateBooking`). -/
def bookingStatusName : BookingStatus → String
  | BookingStatus.pending => "pending"
  | BookingStatus.confirmed => "confirmed"
  | BookingStatus.completed => "completed"
  | BookingStatus.cancelled => "cancelled"

/-- A `Booking` document with the fields the update/cancel controllers
touch. -/
structure Booking where
  client : Nat
  sessionType : String
  date : Nat
  location : String
  notes : String
  status : BookingStatus
  calendlyEventId : Option String
deriving Repr, DecidableEq

/-- The `Booking` collection as an association list keyed by id. -/
abbrev BookingStore := List (Nat × Booking)

/-- `Booking.findById`. -/
def findBooking : BookingStore → Nat → Option Booking
  | [], _ => none
  | (k, b) :: rest, id => if k = id then some b else findBooking rest id

/-- `booking.save()` / `Booking.findByIdAndUpdate`. -/
def saveBooking : BookingStore → Nat → Booking → BookingStore
  | [], _, _ => []
  | (k, q) :: rest, id, b =>
      (if k = id then (id, b) else (k, q)) :: saveBooking rest id b

/-- The update payload of `updateBooking` after filtering out `undefined`
fields: each present field overwrites the stored one. -/
structure BookingUpdate where
  sessionType : Option String
  date : Option Nat
  location : Option String
  notes : Option String
deriving Repr, DecidableEq

/-- `Booking.findByIdAndUpdate` with the filtered field object: partial
merge of the provided fields over the stored document. -/
def applyUpdate (b : Booking) (u : BookingUpdate) : Booking :=
  { b with
      sessionType := u.sessionType.getD b.sessionType
      date := u.date.getD b.date
      location := u.location.getD b.location
      notes := u.notes.getD b.notes }

/-- `updateBooking(id, requester, fields)`: 404 if absent; 401 if the
requester is neither the owning client nor an admin; 400 if the booking
is already `confirmed` or `completed` and the requester is not an admin;
otherwise the partial-field update is applied and saved. -/
def updateBooking (requester : Requester) (bookingId : Nat) (u : BookingUpdate)
    (bookings : BookingStore) : BookingStore × Except ErrorResponse Booking :=
  match findBooking bookings bookingId with
  | none =>
      (bookings, Except.error
        ⟨"Booking not found with id of " ++ toString bookingId, 404⟩)
  | some booking =>
      if booking.client ≠ requester.id ∧ requester.role ≠ Role.admin then
        (bookings, Except.error
          ⟨"User " ++ toString requester.id ++ " is not authorized to update this booking", 401⟩)
      else if (booking.status = BookingStatus.confirmed ∨
               booking.status = BookingStatus.completed) ∧ requester.role ≠ Role.admin then
        (bookings, Except.error
          ⟨"Cannot update a booking that is already " ++ bookingStatusName booking.status, 400⟩)
      else
        (saveBooking bookings bookingId (applyUpdate booking u),
         Except.ok (applyUpdate booking u))

/-- `updateBookingStatus` (admin route): find the booking, 404 if
absent, otherwise set `booking.status` to the requested value and save —
no check against the current status. -/
def updateBookingStatus (bookings : BookingStore) (id : Nat) (status : BookingStatus) :
    BookingStore × Except ErrorResponse Booking :=
  match findBooking bookings id with
  | none => (bookings, Except.error ⟨"Booking not found with id of " ++ toString id, 404⟩)
  | some booking =>
      let updated := { booking with status := status }
      (saveBooking bookings id updated, Except.ok updated)

/-- `cancelBooking(id, requester, reason)`: 404 if absent; 401 if the
requester is neither the owning client nor an admin; 400 if the booking
is `completed`; otherwise the status is set to `cancelled` and saved,
and afterwards, when `calendlyEventId` is set and the Calendly API key
is configured, the external cancellation endpoint is called for that
event id.  The external call's own failure is caught and logged in the
source, so its outcome (`calendlyCallFails`) influences neither the
store nor the response.  The middle component of the result lists the
external cancellation calls issued (by event id). -/
def cancelBooking (requester : Requester) (bookingId : Nat)
    (calendlyConfigured : Bool) (calendlyCallFails : Bool)
    (bookings : BookingStore) :
    BookingStore × List String × Except ErrorResponse Booking :=
  match findBooking bookings bookingId with
  | none =>
      (bookings, [], Except.error
        ⟨"Booking not found with id of " ++ toString bookingId, 404⟩)
  | some booking =>
      if booking.client ≠ requester.id ∧ requester.role ≠ Role.admin then
        (bookings, [], Except.error
          ⟨"User " ++ toString requester.id ++ " is not authorized to cancel this booking", 401⟩)
      else if booking.status = BookingStatus.completed then
        (bookings, [], Except.error ⟨"Cannot cancel a completed booking", 400⟩)
      else
        let cancelled := { booking with status := BookingStatus.cancelled }
        let calls : List String :=
          match cancelled.calendlyEventId with
          | some eventId => if calendlyConfigured then [eventId] else []
          | none => []
        (saveBooking bookings bookingId cancelled, calls, Except.ok cancelled)

/-! ### Login -/

/-- A `User` document as read by `login` (`select('+password')`). -/
structure UserRec where
  id : Nat
  email : String
  passwordHash : String
  role : Role
deriving Repr, DecidableEq

/-- `User.findOne({ email })`. -/
def findUserByEmail : List UserRec → String → Option UserRec
  | [], _ => none
  | u :: rest, email => if u.email = email then some u else findUserByEmail rest email

/-- Result of a `login` call: an `ErrorResponse` passed to `next`, or
`sendTokenResponse(user, 200)` for the resolved user. -/
inductive LoginResult
  | err (e : ErrorResponse)
  | token (userId : Nat)
deriving Repr, DecidableEq

/-- `login(email, password)`: 400 when either input is missing (falsy,
i.e. the empty string), 401 `Invalid credentials` when no user has the
email *or* when `user.matchPassword(password)` is false, token response
otherwise.  `matchPassword` abstracts the bcrypt comparison of the
supplied password against the stored hash. -/
def login (matchPassword : String → String → Bool) (users : List UserRec)
    (email password : String) : LoginResult :=
  if email = "" ∨ password = "" then
    LoginResult.err ⟨"Please provide an email and password", 400⟩
  else
    match findUserByEmail users email with
    | none => LoginResult.err ⟨"Invalid credentials", 401⟩
    | some user =>
        if matchPassword password user.passwordHash then LoginResult.token user.id
        else LoginResult.err ⟨"Invalid credentials", 401⟩

/-! ### Concrete sample data used by witnesses and counterexamples -/

/-- A two-product store: product 1 in stock, product 2 sold out. -/
def demoStore2 : ProductStore := [(1, ⟨"A", 5, 10⟩), (2, ⟨"B", 3, 0⟩)]

/-- `demoStore2` after the first cart item (two units of product 1) has
been processed. -/
def demoStore2Mid : ProductStore := [(1, ⟨"A", 5, 8⟩), (2, ⟨"B", 3, 0⟩)]

/-- A one-product store: product 1 priced 50 with stock 5. -/
def demoStore : ProductStore := [(1, ⟨"P", 50, 5⟩)]

/-- The store after buying two units of product 1. -/
def demoStoreAfter : ProductStore := [(1, ⟨"P", 50, 3⟩)]

/-- The order produced by `createOrder 7 [⟨1, 2⟩] (some "addr") demoStore`. -/
def demoOrder : Order :=
  { user := 7
    products := [⟨1, "P", 50, 2⟩]
    shippingAddress := "addr"
    subtotal := 100
    tax := 10
    shipping := 10
    total := 120
    status := OrderStatus.pending
    paymentInfo := ⟨"", PaymentStatus.pending⟩ }

/-- An order store holding `demoOrder` under id 1. -/
def demoOrders : OrderStore := [(1, demoOrder)]

/-- `demoOrder` marked delivered (for the admin status-update claim). -/
def demoOrderDelivered : Order := { demoOrder with status := OrderStatus.delivered }

/-- A `confirmed` booking owned by client 5. -/
def demoBookingConfirmed : Booking :=
  ⟨5, "portrait", 100, "studio", "", BookingStatus.confirmed, none⟩

/-- A `pending` booking owned by client 5 with a Calendly event id. -/
def demoBookingPending : Booking :=
  ⟨5, "portrait", 100, "studio", "", BookingStatus.pending, some "ev1"⟩

/-- `demoBookingPending` after cancellation. -/
def demoBookingCancelled : Booking :=
  ⟨5, "portrait", 100, "studio", "", BookingStatus.cancelled, some "ev1"⟩

/-- A `completed` booking owned by client 5. -/
def demoBookingCompleted : Booking :=
  ⟨5, "portrait", 100, "studio", "", BookingStatus.completed, none⟩

/-- A booking store holding `demoBookingConfirmed` under id 1. -/
def demoBookings : BookingStore := [(1, demoBookingConfirmed)]

/-- A partial update payload: new session type and notes only. -/
def demoUpdate : BookingUpdate := ⟨some "wedding", none, none, some "bring props"⟩

/-- A one-user store for the login claim. -/
def demoUsers : List UserRec := [⟨1, "a@b.c", "hunter2hash", Role.user⟩]

/-- The bcrypt comparison abstracted as plain equality for the sample
run of `login`. -/
def demoMatch (password hash : String) : Bool := password == hash

/-! ## Helper lemmas -/

lemma findProduct_saveProduct (store : ProductStore) (id : Nat) (p : Product) (id2 : Nat) :
    findProduct (saveProduct store id p) id2 =
      if id2 = id then (findProduct store id).map (fun _ => p)
      else findProduct store id2 := by
  induction store with
  | nil =>
    simp [findProduct, saveProduct]
  | cons hd tl ih =>
    obtain ⟨k, q⟩ := hd
    by_cases h1 : k = id
    · subst h1
      rw [saveProduct, if_pos rfl]
      by_cases h2 : id2 = k
      · subst h2
        simp [findProduct]
      · have h2s : ¬ k = id2 := fun h => h2 h.symm
        simp [findProduct, h2, h2s, ih]
    · rw [saveProduct, if_neg h1]
      by_cases h2 : id2 = k
      · subst h2
        simp [findProduct, h1]
      · have h2s : ¬ k = id2 := fun h => h2 h.symm
        simp [findProduct, h1, h2s, ih]

lemma processItems_subtotal (items : List CartItem) :
    ∀ (store : ProductStore) (acc : List OrderItem) (sub : Money)
      (store1 : ProductStore) (lines : List OrderItem) (subOut : Money),
      processItems items store acc sub = (store1, Except.ok (lines, subOut)) →
      ∃ newLines, lines = acc ++ newLines ∧ subOut = sub + sumLines newLines := by
  induction items with
  | nil =>
    intro store acc sub store1 lines subOut h
    simp [processItems] at h
    exact ⟨[], by simp [h.2.1.symm], by simp [sumLines, h.2.2.symm]⟩
  | cons item rest ih =>
    intro store acc sub store1 lines subOut h
    rw [processItems] at h
    split at h
    · simp at h
    · next product hf =>
      split at h
      · simp at h
      · next hs =>
        obtain ⟨newLines, hl, hsub⟩ := ih _ _ _ _ _ _ h
        refine ⟨⟨item.product, product.name, product.price, item.quantity⟩ :: newLines, ?_, ?_⟩
        · simpa using hl
        · rw [hsub]
          simp [sumLines, lineTotal]
          ring

lemma processItems_nameAndPrice (items : List CartItem) :
    ∀ (store : ProductStore) (acc : List OrderItem) (sub : Money) (id : Nat),
      Option.map nameAndPrice (findProduct (processItems items store acc sub).1 id) =
        Option.map nameAndPrice (findProduct store id) := by
  induction items with
  | nil => intro store acc sub id; simp [processItems]
  | cons item rest ih =>
    intro store acc sub id
    rw [processItems]
    split
    · simp
    · next product hf =>
      split
      · simp
      · next hs =>
        rw [ih]
        rw [findProduct_saveProduct]
        by_cases hid : id = item.product
        · subst hid
          rw [if_pos rfl, hf]
          simp [nameAndPrice]
        · rw [if_neg hid]

lemma processItems_snapshot (items : List CartItem) :
    ∀ (store : ProductStore) (acc : List OrderItem) (sub : Money)
      (store1 : ProductStore) (lines : List OrderItem) (subOut : Money),
      processItems items store acc sub = (store1, Except.ok (lines, subOut)) →
      ∀ l ∈ lines, l ∈ acc ∨
        ∃ p, findProduct store l.product = some p ∧ l.name = p.name ∧ l.price = p.price := by
  induction items with
  | nil =>
    intro store acc sub store1 lines subOut h l hl
    simp [processItems] at h
    exact Or.inl (h.2.1 ▸ hl)
  | cons item rest ih =>
    intro store acc sub store1 lines subOut h l hl
    rw [processItems] at h
    split at h
    · simp at h
    · next product hf =>
      split at h
      · simp at h
      · next hs =>
        rcases ih _ _ _ _ _ _ h l hl with hacc | ⟨p, hp, hn, hpr⟩
        · rcases List.mem_append.mp hacc with h1 | h1
          · exact Or.inl h1
          · right
            have hline : l = ⟨item.product, product.name, product.price, item.quantity⟩ := by
              simpa using h1
            subst hline
            exact ⟨product, hf, rfl, rfl⟩
        · right
          have hpres := findProduct_saveProduct store item.product
            { product with stock := product.stock - item.quantity } l.product
          rw [hpres] at hp
          by_cases hid : l.product = item.product
          · rw [if_pos hid, hf] at hp
            simp at hp
            refine ⟨product, ?_, ?_, ?_⟩
            · rw [hid, hf]
            · rw [hn, ← hp]
            · rw [hpr, ← hp]
          · rw [if_neg hid] at hp
            exact ⟨p, hp, hn, hpr⟩

/-- Concrete evaluation of `createOrder` on the sample store: two units
of the 50-priced product yield subtotal 100, tax 10, shipping 10 (the
`subtotal > 100` test is false at exactly 100), total 120, and the stock
drops from 5 to 3. -/
lemma createOrder_demo_eval :
    createOrder 7 [⟨1, 2⟩] (some "addr") demoStore =
      (demoStoreAfter, Except.ok demoOrder) := by
  norm_num [createOrder, processItems, findProduct, saveProduct, demoStore,
    demoStoreAfter, demoOrder]

/-! ## Claims -/

/-- Claim C1: every successful `createOrder` call persists an order with
`subtotal` equal to the sum of snapshotted price times quantity over its
line items, `tax = subtotal * 0.1`, `shipping = 0` iff `subtotal > 100`
else `10`, `total = subtotal + tax + shipping`, and each line item's
name and price equal the product's name and price as found in the store
at order-creation time. -/
theorem createOrder_pricing (userId : Nat) (items : List CartItem) (addr : String)
    (store store1 : ProductStore) (order : Order)
    (h : createOrder userId items (some addr) store = (store1, Except.ok order)) :
    order.subtotal = sumLines order.products ∧
    order.tax = order.subtotal * (0.1 : Money) ∧
    order.shipping = (if order.subtotal > 100 then (0 : Money) else 10) ∧
    order.total = order.subtotal + order.tax + order.shipping ∧
    ∀ l ∈ order.products, ∃ p, findProduct store l.product = some p ∧
      l.name = p.name ∧ l.price = p.price := by
  rw [createOrder] at h
  by_cases hempty : items.isEmpty
  · rw [if_pos hempty] at h; simp at h
  · rw [if_neg hempty] at h
    cases hp : processItems items store [] 0 with
    | mk store2 result =>
      rw [hp] at h
      cases result with
      | error e => simp at h
      | ok pair =>
        obtain ⟨orderItems, subtotal⟩ := pair
        simp at h
        obtain ⟨hst, hord⟩ := h
        subst hord
        refine ⟨?_, rfl, rfl, rfl, ?_⟩
        · obtain ⟨newLines, hl, hsub⟩ :=
            processItems_subtotal items store [] 0 store2 orderItems subtotal hp
          simp at hl
          rw [hsub, hl]
          simp
        · intro l hl
          have hsn := processItems_snapshot items store [] 0 store2 orderItems subtotal hp l hl
          simpa using hsn

/-- Witness for C1 at the sample input. -/
theorem createOrder_pricing_witness :
    demoOrder.subtotal = sumLines demoOrder.products ∧
    demoOrder.tax = demoOrder.subtotal * (0.1 : Money) ∧
    demoOrder.shipping = (if demoOrder.subtotal > 100 then (0 : Money) else 10) ∧
    demoOrder.total = demoOrder.subtotal + demoOrder.tax + demoOrder.shipping ∧
    ∀ l ∈ demoOrder.products, ∃ p, findProduct demoStore l.product = some p ∧
      l.name = p.name ∧ l.price = p.price :=
  createOrder_pricing 7 [⟨1, 2⟩] "addr" demoStore demoStoreAfter demoOrder
    createOrder_demo_eval

/-- Counterexample to claim C2 as stated: at the boundary example
(price 50, quantity 2, so subtotal exactly 100) the persisted order has
shipping 10 and total 120 — not shipping 0 and total 110, because the
free-shipping test `subtotal > 100` is false at exactly 100. -/
theorem createOrder_boundary_counterexample :
    createOrder 7 [⟨1, 2⟩] (some "addr") demoStore =
      (demoStoreAfter, Except.ok demoOrder) ∧
    demoOrder.subtotal = 100 ∧ demoOrder.tax = 10 ∧
    demoOrder.shipping = 10 ∧ ¬ demoOrder.shipping = 0 ∧
    demoOrder.total = 120 ∧ ¬ demoOrder.total = 110 := by
  refine ⟨createOrder_demo_eval, ?_⟩
  norm_num [demoOrder]

/-- Claim C2 (amended): `createOrder(user, [(P, 2)], addr)` with
`P.price = 50`, `P.stock = 5` succeeds with subtotal 100, tax 10,
shipping **10** (at the exact boundary `subtotal == 100` the
`subtotal > 100` test is false, so shipping is charged), total **120**,
and P's stock becomes 3. -/
theorem createOrder_boundary :
    createOrder 7 [⟨1, 2⟩] (some "addr") demoStore =
      (demoStoreAfter, Except.ok demoOrder) ∧
    demoOrder.subtotal = 100 ∧ demoOrder.tax = 10 ∧ demoOrder.shipping = 10 ∧
    demoOrder.total = 120 ∧ findProduct demoStoreAfter 1 = some ⟨"P", 50, 3⟩ := by
  refine ⟨createOrder_demo_eval, ?_⟩
  norm_num [demoOrder, demoStoreAfter, findProduct]

/-- Claim C3: the stock check and decrement of `createOrder` are two
separate persistence steps (a plain read, then an unconditional
write-back of the in-memory copy), so they are *not* atomic.  Under the
interleaving read-A, read-B, write-A, write-B of two concurrent
single-unit orders against a product with stock 1, *both* calls succeed
and two units are sold from a stock of 1 (final stock 0), contradicting
the claimed exactly-one-succeeds outcome; only a serialized execution
produces exactly one success and one insufficient-stock failure. -/
theorem createOrder_oversell_interleaving :
    runSched 1 ⟨1, AgentPC.start, AgentPC.start⟩ [false, true, false, true] =
      ⟨0, AgentPC.done true, AgentPC.done true⟩ ∧
    runSched 1 ⟨1, AgentPC.start, AgentPC.start⟩ [false, false, true, true] =
      ⟨0, AgentPC.done true, AgentPC.done false⟩ := by
  decide

lemma processItems_append_ok (xs ys : List CartItem) :
    ∀ (store store1 : ProductStore) (acc lines : List OrderItem) (sub sub1 : Money),
      processItems xs store acc sub = (store1, Except.ok (lines, sub1)) →
      processItems (xs ++ ys) store acc sub = processItems ys store1 lines sub1 := by
  induction xs with
  | nil =>
    intro store store1 acc lines sub sub1 h
    simp [processItems] at h
    rw [List.nil_append, h.1, h.2.1, h.2.2]
  | cons item rest2 ih =>
    intro store store1 acc lines sub sub1 h
    rw [processItems] at h
    rw [List.cons_append, processItems]
    split at h
    · exact absurd h (by simp)
    · next product heq =>
      split at h
      · exact absurd h (by simp)
      · next hs =>
        rw [if_neg hs]
        exact ih _ _ _ _ _ _ h

/-- Claim C4: if the item loop of `createOrder` fails at some item (the
`bad` item below: product absent or stock below the requested quantity)
after a prefix of items was processed successfully, the call returns the
error — so no order is persisted — but the returned store is exactly the
store **after** the prefix's stock decrements: they are not rolled back,
and the items after the failing one touch nothing. -/
theorem createOrder_partial_decrement (userId : Nat) (pre : List CartItem)
    (bad : CartItem) (rest : List CartItem) (addr : String)
    (store store1 : ProductStore) (lines : List OrderItem) (sub : Money)
    (hpre : processItems pre store [] 0 = (store1, Except.ok (lines, sub)))
    (hbad : itemFails store1 bad = true) :
    ∃ e, createOrder userId (pre ++ bad :: rest) (some addr) store =
      (store1, Except.error e) := by
  have happ := processItems_append_ok pre (bad :: rest) store store1 [] lines 0 sub hpre
  rw [itemFails] at hbad
  rw [createOrder]
  have hne : (pre ++ bad :: rest).isEmpty = false := by simp
  simp only [hne, Bool.false_eq_true, if_false, happ]
  rw [processItems]
  split at hbad
  · next heq =>
    simp only [heq]
    exact ⟨_, rfl⟩
  · next p heq =>
    have hs : p.stock < bad.quantity := by simpa using hbad
    rw [if_pos hs]
    exact ⟨_, rfl⟩

/-- Concrete evaluation of the successful prefix for the C4 witness:
processing two units of product 1 decrements its stock from 10 to 8. -/
lemma processItems_demo2_eval :
    processItems [⟨1, 2⟩] demoStore2 [] 0 =
      (demoStore2Mid, Except.ok ([⟨1, "A", 5, 2⟩], 10)) := by
  norm_num [processItems, findProduct, saveProduct, demoStore2, demoStore2Mid]

/-- Witness for C4: a two-item order whose second item is sold out fails
but leaves the first item's decrement in place. -/
theorem createOrder_partial_decrement_witness :
    ∃ e, createOrder 9 ([⟨1, 2⟩] ++ ⟨2, 1⟩ :: []) (some "addr") demoStore2 =
      (demoStore2Mid, Except.error e) :=
  createOrder_partial_decrement 9 [⟨1, 2⟩] ⟨2, 1⟩ [] "addr" demoStore2 demoStore2Mid
    [⟨1, "A", 5, 2⟩] 10 processItems_demo2_eval (by decide)

/-- Claim C5: the Stripe webhook handler answers a signature-verification
failure with 400 and no state change; a verified
`payment_intent.succeeded` event whose `metadata.orderId` names an
existing order updates exactly that order to
`paymentInfo.status = completed` and `status = processing` and is
acknowledged; an event for an unknown order id, and any other event
type, is acknowledged with 200 and changes no state. -/
theorem handleStripeWebhook_spec (orders : OrderStore) :
    (∀ msg, handleStripeWebhook (Except.error msg) orders =
      (orders, ⟨400, "Webhook Error: " ++ msg⟩)) ∧
    (∀ eventType, handleStripeWebhook (Except.ok (StripeEvent.other eventType)) orders =
      (orders, ⟨200, "received"⟩)) ∧
    (∀ orderId, findOrder orders orderId = none →
      handleStripeWebhook (Except.ok (StripeEvent.paymentIntentSucceeded orderId)) orders =
        (orders, ⟨200, "received"⟩)) ∧
    (∀ orderId order, findOrder orders orderId = some order →
      handleStripeWebhook (Except.ok (StripeEvent.paymentIntentSucceeded orderId)) orders =
        (saveOrder orders orderId
          { order with
              paymentInfo := { order.paymentInfo with status := PaymentStatus.completed }
              status := OrderStatus.processing },
         ⟨200, "received"⟩)) := by
  refine ⟨fun msg => rfl, fun eventType => rfl, fun orderId hid => ?_, fun orderId order hord => ?_⟩
  · simp only [handleStripeWebhook, hid]
  · simp only [handleStripeWebhook, hord]

/-- Witness for C5: a succeeded-payment event for the existing order 1
updates it; the same event for the unknown order 2 is acknowledged with
no change. -/
theorem handleStripeWebhook_spec_witness :
    handleStripeWebhook (Except.ok (StripeEvent.paymentIntentSucceeded 1)) demoOrders =
      (saveOrder demoOrders 1
        { demoOrder with
            paymentInfo := { demoOrder.paymentInfo with status := PaymentStatus.completed }
            status := OrderStatus.processing },
       ⟨200, "received"⟩) ∧
    handleStripeWebhook (Except.ok (StripeEvent.paymentIntentSucceeded 2)) demoOrders =
      (demoOrders, ⟨200, "received"⟩) :=
  ⟨(handleStripeWebhook_spec demoOrders).2.2.2 1 demoOrder rfl,
   (handleStripeWebhook_spec demoOrders).2.2.1 2 rfl⟩

/-- Counterexample to claim C6 as stated: `updateBooking` on a
`confirmed` booking by its non-admin owner fails with the status-400
"Cannot update" error, not with a Forbidden (403) error as claimed (the
spec's own taxonomy assigns 403 to ForbiddenError). -/
theorem updateBooking_locked_counterexample :
    (updateBooking ⟨5, Role.user⟩ 1 demoUpdate demoBookings).2 =
      Except.error ⟨"Cannot update a booking that is already confirmed", 400⟩ ∧
    (400 : Nat) ≠ 403 := by
  exact ⟨rfl, by decide⟩

/-- Claim C6 (amended): for every booking whose status is `confirmed` or
`completed`, `updateBooking` by a non-admin owner fails with the 400
"Cannot update" error, by a non-admin non-owner with the 401
authorization error — in both cases leaving the store unchanged — while
the same call by an admin succeeds and applies the partial-field
update. -/
theorem updateBooking_locked (requester : Requester) (bookingId : Nat)
    (u : BookingUpdate) (bookings : BookingStore) (booking : Booking)
    (hfind : findBooking bookings bookingId = some booking)
    (hlocked : booking.status = BookingStatus.confirmed ∨
               booking.status = BookingStatus.completed) :
    (booking.client = requester.id → requester.role ≠ Role.admin →
      updateBooking requester bookingId u bookings =
        (bookings, Except.error
          ⟨"Cannot update a booking that is already " ++ bookingStatusName booking.status,
           400⟩)) ∧
    (booking.client ≠ requester.id → requester.role ≠ Role.admin →
      updateBooking requester bookingId u bookings =
        (bookings, Except.error
          ⟨"User " ++ toString requester.id ++ " is not authorized to update this booking",
           401⟩)) ∧
    (requester.role = Role.admin →
      updateBooking requester bookingId u bookings =
        (saveBooking bookings bookingId (applyUpdate booking u),
         Except.ok (applyUpdate booking u))) := by
  refine ⟨fun hown hadm => ?_, fun hnot hadm => ?_, fun hadm => ?_⟩
  · simp only [updateBooking, hfind]
    rw [if_neg (fun hc => hc.1 hown), if_pos ⟨hlocked, hadm⟩]
  · simp only [updateBooking, hfind]
    rw [if_pos ⟨hnot, hadm⟩]
  · simp only [updateBooking, hfind]
    rw [if_neg (fun hc => hc.2 hadm), if_neg (fun hc => hc.2 hadm)]

/-- Witness for the amended C6 on the sample confirmed booking: owner
(client 5) fails 400, stranger 77 fails 401, admin succeeds and applies
the update. -/
theorem updateBooking_locked_witness :
    updateBooking ⟨5, Role.user⟩ 1 demoUpdate demoBookings =
      (demoBookings, Except.error
        ⟨"Cannot update a booking that is already " ++
          bookingStatusName demoBookingConfirmed.status, 400⟩) ∧
    updateBooking ⟨77, Role.user⟩ 1 demoUpdate demoBookings =
      (demoBookings, Except.error
        ⟨"User " ++ toString (77 : Nat) ++ " is not authorized to update this booking",
         401⟩) ∧
    updateBooking ⟨77, Role.admin⟩ 1 demoUpdate demoBookings =
      (saveBooking demoBookings 1 (applyUpdate demoBookingConfirmed demoUpdate),
       Except.ok (applyUpdate demoBookingConfirmed demoUpdate)) :=
  ⟨(updateBooking_locked ⟨5, Role.user⟩ 1 demoUpdate demoBookings demoBookingConfirmed
      rfl (Or.inl rfl)).1 rfl (by decide),
   (updateBooking_locked ⟨77, Role.user⟩ 1 demoUpdate demoBookings demoBookingConfirmed
      rfl (Or.inl rfl)).2.1 (by decide) (by decide),
   (updateBooking_locked ⟨77, Role.admin⟩ 1 demoUpdate demoBookings demoBookingConfirmed
      rfl (Or.inl rfl)).2.2 rfl⟩

/-- Claim C10: the admin status-update endpoints perform no
state-machine transition check — for every existing order and every
status in the order-status enum, `updateOrderStatus` sets exactly the
requested status whatever the current one, and `updateBookingStatus`
does the same for bookings. -/
theorem adminStatusUpdate_noCheck (orders : OrderStore) (bookings : BookingStore)
    (orderId bookingId : Nat) (order : Order) (booking : Booking)
    (newOrderStatus : OrderStatus) (newBookingStatus : BookingStatus)
    (ho : findOrder orders orderId = some order)
    (hb : findBooking bookings bookingId = some booking) :
    updateOrderStatus orders orderId newOrderStatus =
      (saveOrder orders orderId { order with status := newOrderStatus },
       Except.ok { order with status := newOrderStatus }) ∧
    updateBookingStatus bookings bookingId newBookingStatus =
      (saveBooking bookings bookingId { booking with status := newBookingStatus },
       Except.ok { booking with status := newBookingStatus }) := by
  constructor
  · simp only [updateOrderStatus, ho]
  · simp only [updateBookingStatus, hb]

/-- Witness for C10: a delivered order is set back to `pending`, and a
completed booking is set to `cancelled`. -/
theorem adminStatusUpdate_noCheck_witness :
    updateOrderStatus [(3, demoOrderDelivered)] 3 OrderStatus.pending =
      (saveOrder [(3, demoOrderDelivered)] 3 { demoOrderDelivered with status := OrderStatus.pending },
       Except.ok { demoOrderDelivered with status := OrderStatus.pending }) ∧
    updateBookingStatus [(4, demoBookingCompleted)] 4 BookingStatus.cancelled =
      (saveBooking [(4, demoBookingCompleted)] 4 { demoBookingCompleted with status := BookingStatus.cancelled },
       Except.ok { demoBookingCompleted with status := BookingStatus.cancelled }) :=
  adminStatusUpdate_noCheck [(3, demoOrderDelivered)] [(4, demoBookingCompleted)] 3 4
    demoOrderDelivered demoBookingCompleted OrderStatus.pending BookingStatus.cancelled
    rfl rfl

lemma cancelBooking_owner_not_stranger (requester : Requester) (booking : Booking)
    (hown : booking.client = requester.id ∨ requester.role = Role.admin) :
    ¬ (booking.client ≠ requester.id ∧ requester.role ≠ Role.admin) := by
  intro hc
  cases hown with
  | inl h => exact hc.1 h
  | inr h => exact hc.2 h

lemma cancelBooking_success_eq (requester : Requester) (bookingId : Nat)
    (calendlyConfigured calendlyCallFails : Bool)
    (bookings : BookingStore) (booking : Booking)
    (hfind : findBooking bookings bookingId = some booking)
    (hown : booking.client = requester.id ∨ requester.role = Role.admin)
    (hnot : booking.status ≠ BookingStatus.completed) :
    cancelBooking requester bookingId calendlyConfigured calendlyCallFails bookings =
      (saveBooking bookings bookingId { booking with status := BookingStatus.cancelled },
       (match booking.calendlyEventId with
        | some eventId => if calendlyConfigured then [eventId] else []
        | none => []),
       Except.ok { booking with status := BookingStatus.cancelled }) := by
  simp only [cancelBooking, hfind]
  rw [if_neg (cancelBooking_owner_not_stranger requester booking hown), if_neg hnot]

/-- Claim C7: `cancelBooking` by the owner or an admin fails with the
400 BadRequest error and leaves everything unchanged when the booking is
`completed`; otherwise it sets the status to `cancelled` and saves, the
external Calendly cancellation is attempted exactly when an event id is
present (and the API key configured), and a failure of that external
call changes nothing — the result is identical whether the external call
fails or succeeds. -/
theorem cancelBooking_spec (requester : Requester) (bookingId : Nat)
    (calendlyConfigured calendlyCallFails : Bool)
    (bookings : BookingStore) (booking : Booking)
    (hfind : findBooking bookings bookingId = some booking)
    (hown : booking.client = requester.id ∨ requester.role = Role.admin) :
    (booking.status = BookingStatus.completed →
      cancelBooking requester bookingId calendlyConfigured calendlyCallFails bookings =
        (bookings, [], Except.error ⟨"Cannot cancel a completed booking", 400⟩)) ∧
    (booking.status ≠ BookingStatus.completed →
      cancelBooking requester bookingId calendlyConfigured calendlyCallFails bookings =
        (saveBooking bookings bookingId { booking with status := BookingStatus.cancelled },
         (match booking.calendlyEventId with
          | some eventId => if calendlyConfigured then [eventId] else []
          | none => []),
         Except.ok { booking with status := BookingStatus.cancelled })) ∧
    cancelBooking requester bookingId calendlyConfigured true bookings =
      cancelBooking requester bookingId calendlyConfigured false bookings := by
  refine ⟨fun hdone => ?_,
    cancelBooking_success_eq requester bookingId calendlyConfigured calendlyCallFails
      bookings booking hfind hown, ?_⟩
  · simp only [cancelBooking, hfind]
    rw [if_neg (cancelBooking_owner_not_stranger requester booking hown), if_pos hdone]
  · simp only [cancelBooking, hfind]

/-- Witness for C7 on the sample bookings: cancelling the completed
booking fails 400; cancelling the pending booking (owner, Calendly
configured, external call failing) cancels locally and issues the
external call, with the same result as when the external call
succeeds. -/
theorem cancelBooking_spec_witness :
    cancelBooking ⟨5, Role.user⟩ 4 true true [(4, demoBookingCompleted)] =
      ([(4, demoBookingCompleted)], [],
       Except.error ⟨"Cannot cancel a completed booking", 400⟩) ∧
    cancelBooking ⟨5, Role.user⟩ 2 true true [(2, demoBookingPending)] =
      (saveBooking [(2, demoBookingPending)] 2
        { demoBookingPending with status := BookingStatus.cancelled },
       (match demoBookingPending.calendlyEventId with
        | some eventId => if true then [eventId] else []
        | none => []),
       Except.ok { demoBookingPending with status := BookingStatus.cancelled }) ∧
    cancelBooking ⟨5, Role.user⟩ 2 true true [(2, demoBookingPending)] =
      cancelBooking ⟨5, Role.user⟩ 2 true false [(2, demoBookingPending)] :=
  ⟨(cancelBooking_spec ⟨5, Role.user⟩ 4 true true [(4, demoBookingCompleted)]
      demoBookingCompleted rfl (Or.inl rfl)).1 rfl,
   (cancelBooking_spec ⟨5, Role.user⟩ 2 true true [(2, demoBookingPending)]
      demoBookingPending rfl (Or.inl rfl)).2.1 (by decide),
   (cancelBooking_spec ⟨5, Role.user⟩ 2 true true [(2, demoBookingPending)]
      demoBookingPending rfl (Or.inl rfl)).2.2⟩

/-- Counterexample to claim C8 as stated: cancelling the pending sample
booking fires the external Calendly cancellation for event "ev1", and
cancelling the resulting already-cancelled booking again *re-fires the
same external call* — `cancelBooking` is not idempotent-safe with
respect to the external side effect, contradicting "never issues the
external calendar cancellation call a second time". -/
theorem cancelBooking_idem_counterexample :
    cancelBooking ⟨5, Role.user⟩ 2 true false [(2, demoBookingPending)] =
      ([(2, demoBookingCancelled)], ["ev1"], Except.ok demoBookingCancelled) ∧
    cancelBooking ⟨5, Role.user⟩ 2 true false [(2, demoBookingCancelled)] =
      ([(2, demoBookingCancelled)], ["ev1"], Except.ok demoBookingCancelled) ∧
    (["ev1"] : List String) ≠ [] := by
  refine ⟨?_, ?_, by decide⟩ <;> rfl

/-- Claim C8 (amended): calling `cancelBooking` on a booking whose
status is already `cancelled` succeeds and leaves the booking value
unchanged (the same document is written back), but it is *not* rejected
and, whenever a Calendly event id is present and the API key configured,
it issues the external cancellation call again. -/
theorem cancelBooking_already_cancelled (requester : Requester) (bookingId : Nat)
    (calendlyConfigured calendlyCallFails : Bool)
    (bookings : BookingStore) (booking : Booking)
    (hfind : findBooking bookings bookingId = some booking)
    (hown : booking.client = requester.id ∨ requester.role = Role.admin)
    (hcancelled : booking.status = BookingStatus.cancelled) :
    cancelBooking requester bookingId calendlyConfigured calendlyCallFails bookings =
      (saveBooking bookings bookingId booking,
       (match booking.calendlyEventId with
        | some eventId => if calendlyConfigured then [eventId] else []
        | none => []),
       Except.ok booking) := by
  have hsame : { booking with status := BookingStatus.cancelled } = booking := by
    cases booking
    simp_all
  have hnot : booking.status ≠ BookingStatus.completed := by
    rw [hcancelled]
    decide
  have h := cancelBooking_success_eq requester bookingId calendlyConfigured
    calendlyCallFails bookings booking hfind hown hnot
  rw [hsame] at h
  exact h

/-- Witness for the amended C8: re-cancelling the already-cancelled
sample booking writes the same value back, succeeds, and issues the
external call for "ev1" again. -/
theorem cancelBooking_already_cancelled_witness :
    cancelBooking ⟨5, Role.user⟩ 2 true false [(2, demoBookingCancelled)] =
      (saveBooking [(2, demoBookingCancelled)] 2 demoBookingCancelled,
       (match demoBookingCancelled.calendlyEventId with
        | some eventId => if true then [eventId] else []
        | none => []),
       Except.ok demoBookingCancelled) :=
  cancelBooking_already_cancelled ⟨5, Role.user⟩ 2 true false
    [(2, demoBookingCancelled)] demoBookingCancelled rfl (Or.inl rfl) rfl

/-- Claim C9: a `login` that fails because the email matches no user and
a `login` that fails because the password does not match the stored hash
both produce the very same observable result — the 401 error with
message "Invalid credentials" — so the two failure causes are
indistinguishable to the caller. -/
theorem login_indistinguishable (matchPassword : String → String → Bool)
    (users : List UserRec) (email1 password1 email2 password2 : String) (u : UserRec)
    (h1e : email1 ≠ "") (h1p : password1 ≠ "")
    (h2e : email2 ≠ "") (h2p : password2 ≠ "")
    (habsent : findUserByEmail users email1 = none)
    (hfound : findUserByEmail users email2 = some u)
    (hmismatch : matchPassword password2 u.passwordHash = false) :
    login matchPassword users email1 password1 =
      LoginResult.err ⟨"Invalid credentials", 401⟩ ∧
    login matchPassword users email2 password2 =
      LoginResult.err ⟨"Invalid credentials", 401⟩ ∧
    login matchPassword users email1 password1 =
      login matchPassword users email2 password2 := by
  have hmiss1 : ¬ (email1 = "" ∨ password1 = "") := by
    intro h
    exact h.elim h1e h1p
  have hmiss2 : ¬ (email2 = "" ∨ password2 = "") := by
    intro h
    exact h.elim h2e h2p
  have ha : login matchPassword users email1 password1 =
      LoginResult.err ⟨"Invalid credentials", 401⟩ := by
    simp only [login, habsent]
    rw [if_neg hmiss1]
  have hb : login matchPassword users email2 password2 =
      LoginResult.err ⟨"Invalid credentials", 401⟩ := by
    simp only [login, hfound]
    rw [if_neg hmiss2, if_neg (by simp [hmismatch])]
  exact ⟨ha, hb, ha.trans hb.symm⟩

/-- Witness for C9: against the one-user sample store, a login with an
unknown email and a login with the right email but wrong password return
the identical "Invalid credentials" 401 error. -/
theorem login_indistinguishable_witness :
    login demoMatch demoUsers "nobody@x" "pw" =
      LoginResult.err ⟨"Invalid credentials", 401⟩ ∧
    login demoMatch demoUsers "a@b.c" "wrong" =
      LoginResult.err ⟨"Invalid credentials", 401⟩ ∧
    login demoMatch demoUsers "nobody@x" "pw" =
      login demoMatch demoUsers "a@b.c" "wrong" :=
  login_indistinguishable demoMatch demoUsers "nobody@x" "pw" "a@b.c" "wrong"
    ⟨1, "a@b.c", "hunter2hash", Role.user⟩
    (by decide) (by decide) (by decide) (by decide) rfl rfl rfl

end NoelPhoto
